import Mathlib

/-!
Verification of the network-interception event core found in
`packages/driver/src/cy/net-stubbing/events/index.ts`.

The JavaScript module is embedded shallowly:

* the driver state store entry `state('routes')` becomes an association
  list from route-handler identifiers to *references* (addresses) into a
  heap of `Route` objects, so that replacing the registry object
  (`state('routes', {})`) is distinguishable from mutating the `Route`
  objects it pointed to;
* JavaScript `undefined` results become `Option.none`;
* a JavaScript error value becomes `JsError`, carrying the `fromSpec`
  flag that `failCurrentTest` sets by mutation;
* a handler invocation is summarised by `HandlerOutcome`: either it
  throws synchronously, or it returns a promise that later settles
  (resolving, or rejecting with an error), in both cases after having
  performed its state update and outbound emissions;
* `Bluebird.try(fn).catch(failCurrentTest)` becomes an explicit
  composition of a thunk result (which may terminate by a synchronous
  throw) with a rejection consumer.
-/

namespace NetStubbing

/-- A JavaScript error object. `fromSpec` models the expando property the
failure-attribution code sets (`err.fromSpec = true`). -/
structure JsError where
  message : String
  fromSpec : Bool := false
deriving DecidableEq, Repr

/-- One in-flight intercepted request, as stored in a route's request
ledger. Its captured metadata is opaque to the dispatcher core. -/
structure Request where
  requestId : String
  payload : String
deriving DecidableEq, Repr

/-- Generic lookup in a JavaScript-object-as-association-list: indexing a
missing key yields `undefined` (`none`), never a throw. -/
def jsGet {β : Type} (obj : List (String × β)) (key : String) : Option β :=
  (obj.find? (fun p => p.1 = key)).map Prod.snd

/-- One registered interception route for the active test: its identity,
opaque match/stub configuration, and its request ledger
(`route.requests`, a JavaScript object keyed by request id). -/
structure Route where
  handlerId : String
  config : String
  requests : List (String × Request)
deriving DecidableEq, Repr

/-- Address of a `Route` object in the heap; registry entries hold
references, not copies. -/
abbrev Addr := Nat

/-- The slice of the driver state relevant to this core: a heap of
`Route` objects and the registry object `state('routes')` mapping
route-handler ids to references into that heap.

Modelled from the spec: the state store always holds a routes object
(possibly empty) — initialisation of the `'routes'` key happens outside
this slice, and §3 requires the registry to exist and be empty at the
start of every test. -/
structure DriverState where
  heap : List (Addr × Route)
  routes : List (String × Addr)
deriving DecidableEq, Repr

/-- Dereference a route address in the heap. -/
def DriverState.deref (s : DriverState) (a : Addr) : Option Route :=
  (s.heap.find? (fun p => p.1 = a)).map Prod.snd

/-- `getRoute (routeHandlerId) { return state('routes')[routeHandlerId] }`:
index the registry object, then follow the stored reference. -/
def getRoute (s : DriverState) (routeHandlerId : String) : Option Route :=
  (jsGet s.routes routeHandlerId).bind s.deref

/-- `getRequest (routeHandlerId, requestId)`: look the route up first; if
present, index its ledger; otherwise return `undefined`. -/
def getRequest (s : DriverState) (routeHandlerId requestId : String) :
    Option Request :=
  match getRoute s routeHandlerId with
  | some route => jsGet route.requests requestId
  | none => none

/-- The `test:before:run` action: `state('routes', {})` rebinds the
registry key to a fresh empty object; the heap (the `Route` objects
themselves) is untouched. -/
def resetForTest (s : DriverState) : DriverState :=
  { s with routes := [] }

/-- One inbound or outbound protocol frame; payload shape is opaque to
the dispatcher. -/
structure NetFrame where
  routeHandlerId : String
  requestId : String
  payload : String
deriving DecidableEq, Repr

/-- One message handed to the host-communication layer:
`Cypress.backend(channel, eventName, frame)`. -/
structure BackendCall where
  channel : String
  eventName : String
  frame : NetFrame
deriving DecidableEq, Repr

/-- Modelled from the spec: `Cypress.backend` (the generic
request/response capability of the host-communication layer, outside
this slice) sends exactly one message carrying its arguments and returns
the promise of that round-trip; the promise is identified by the message
it answers. -/
def cypressBackend (channel eventName : String) (frame : NetFrame) :
    List BackendCall × BackendCall :=
  ([⟨channel, eventName, frame⟩], ⟨channel, eventName, frame⟩)

/-- `emitNetEvent (eventName, frame) { return Cypress.backend('net', eventName, frame) }`:
all driver-to-host messages ride the single `'net'` envelope. Returns
the messages sent and the round-trip promise passed through to the
caller. -/
def emitNetEvent (eventName : String) (frame : NetFrame) :
    List BackendCall × BackendCall :=
  cypressBackend "net" eventName frame

/-- Effect of one `failCurrentTest(err)` call: the error object after
the `err.fromSpec = true` mutation, the `Cypress.cy.fail` invocations
deferred with `setImmediate` (recorded with the error value they will
carry when they run), and any `Cypress.cy.fail` invocation made
synchronously during the call itself. -/
structure FailEffect where
  tagged : JsError
  deferredFails : List JsError
  syncFails : List JsError
deriving DecidableEq, Repr

/-- `failCurrentTest (err)`: sets `err.fromSpec = true`, then schedules
`() => Cypress.cy.fail(err)` with `setImmediate`; the closure captures
the already-mutated error object and nothing fails synchronously. -/
def failCurrentTest (err : JsError) : FailEffect :=
  let tagged := { err with fromSpec := true }
  { tagged := tagged, deferredFails := [tagged], syncFails := [] }

/-- How a handler invocation `handler(Cypress, frame, opts)` goes, as
observed by the dispatcher: it either throws synchronously, or returns
(a promise or `undefined`, the latter treated as an already-resolved
promise by `Bluebird.try`); in each case the state it left behind and
the outbound messages it emitted are recorded, and a returned promise
settles with `none` (resolved) or `some e` (rejected with `e`). -/
inductive HandlerOutcome where
  | syncThrow (s : DriverState) (emits : List BackendCall) (e : JsError)
  | promise (s : DriverState) (emits : List BackendCall)
      (rejection : Option JsError)
deriving DecidableEq, Repr

/-- A lifecycle handler, abstracted over its body (the three handler
modules are outside this slice): given the current driver state and the
inbound frame, it behaves as some `HandlerOutcome`. -/
def HandlerFn : Type := DriverState → NetFrame → HandlerOutcome

/-- The dispatch table `netEventHandlers`: a JavaScript object with
exactly the three lifecycle event names as keys; indexing any other name
yields `undefined`. -/
def netEventHandlers (onRequestReceived onResponseReceived onRequestComplete :
    HandlerFn) : String → Option HandlerFn :=
  fun eventName =>
    if eventName = "http:request:received" then some onRequestReceived
    else if eventName = "http:response:received" then some onResponseReceived
    else if eventName = "http:request:complete" then some onRequestComplete
    else none

/-- How the thunk passed to `Bluebird.try` terminates: a synchronous
throw escaping the thunk, or a returned value whose promise settles with
an optional rejection. -/
inductive ThunkEnd where
  | threw (e : JsError)
  | promised (rejection : Option JsError)
deriving DecidableEq, Repr

/-- Result of evaluating the thunk body: the driver state and emissions
it produced before terminating, and how it terminated. -/
structure ThunkResult where
  state : DriverState
  emits : List BackendCall
  term : ThunkEnd
deriving DecidableEq, Repr

/-- The error JavaScript raises when an `undefined` table entry is
invoked as a function. -/
def handlerNotAFunction : JsError :=
  { message := "handler is not a function" }

/-- The thunk body of the `net:event` listener:
`const handler = netEventHandlers[eventName]; return handler(Cypress, frame, opts)`.
When the table has no entry, `handler` is `undefined` and the call
throws a `TypeError` synchronously, before any state change or
emission. -/
def netEventThunk (table : String → Option HandlerFn) (s : DriverState)
    (eventName : String) (frame : NetFrame) : ThunkResult :=
  match table eventName with
  | none => ⟨s, [], .threw handlerNotAFunction⟩
  | some handler =>
    match handler s frame with
    | .syncThrow s' em e => ⟨s', em, .threw e⟩
    | .promise s' em r => ⟨s', em, .promised r⟩

/-- `Bluebird.try`: a synchronous throw out of the thunk becomes a
rejection of the returned promise; a returned promise is passed
through. Yields the settled rejection, if any, alongside the thunk's
effects. -/
def bluebirdTry (t : ThunkResult) :
    DriverState × List BackendCall × Option JsError :=
  match t.term with
  | .threw e => (t.state, t.emits, some e)
  | .promised r => (t.state, t.emits, r)

/-- Everything one inbound `net:event` dispatch does, as seen from
outside: the final driver state, the outbound messages, the arguments
delivered to `failCurrentTest`, the test-failing actions it deferred,
and any synchronous `Cypress.cy.fail` call. -/
structure DispatchOutcome where
  finalState : DriverState
  emits : List BackendCall
  failCalls : List JsError
  deferredFails : List JsError
  syncFails : List JsError
deriving DecidableEq, Repr

/-- The `net:event` listener installed by `registerEvents`:
`Bluebird.try(thunk).catch(failCurrentTest)`. An `Except.error` result
would model a synchronous throw escaping to the event emitter; the
listener body keeps both the table lookup and the handler invocation
inside the `Bluebird.try` chain, whose terminal `catch` consumes the
rejection, so no such throw exists. -/
def netEventListener (table : String → Option HandlerFn) (s : DriverState)
    (eventName : String) (frame : NetFrame) :
    Except JsError DispatchOutcome :=
  let (s', em, rej) := bluebirdTry (netEventThunk table s eventName frame)
  match rej with
  | some e =>
    let fe := failCurrentTest e
    .ok ⟨s', em, [e], fe.deferredFails, fe.syncFails⟩
  | none => .ok ⟨s', em, [], [], []⟩

end NetStubbing

namespace NetStubbing

/-- A handler that does nothing: leaves the state alone, emits nothing,
and resolves. Used to populate dispatch tables at concrete inputs. -/
def idleHandler : HandlerFn := fun s _ => .promise s [] none

/-- A handler that throws synchronously before doing anything. -/
def throwingHandler : HandlerFn := fun s _ => .syncThrow s [] ⟨"boom", false⟩

/-- A sample route with one ledger entry, for concrete instantiations. -/
def sampleRoute : Route := ⟨"r1", "cfg", [("q1", ⟨"q1", "payload"⟩)]⟩

/-- A sample driver state holding `sampleRoute` at address 0,
registered under `"r1"`. -/
def sampleState : DriverState := ⟨[(0, sampleRoute)], [("r1", 0)]⟩

/-- C1: a route identifier with no registry entry makes `getRoute`
return `undefined`; a pair whose route is absent, or whose route is
present but whose ledger has no entry for the request, makes
`getRequest` return `undefined`. Both are total functions of the state
(`Option`-valued lookups), so neither raises, whatever the registry
held before. -/
theorem getRoute_getRequest_absent (s : DriverState)
    (routeHandlerId requestId : String) :
    (jsGet s.routes routeHandlerId = none → getRoute s routeHandlerId = none) ∧
    (getRoute s routeHandlerId = none →
      getRequest s routeHandlerId requestId = none) ∧
    (∀ route, getRoute s routeHandlerId = some route →
      jsGet route.requests requestId = none →
      getRequest s routeHandlerId requestId = none) := by
  refine ⟨fun h => ?_, fun h => ?_, fun route hr hq => ?_⟩
  · simp [getRoute, h]
  · simp [getRequest, h]
  · simp [getRequest, hr, hq]

/-- Witness for C1 at a concrete state: `sampleState` has no entry for
`"nope"`, and `sampleRoute`'s ledger has no entry for `"missing"`. -/
theorem getRoute_getRequest_absent_spot :
    getRoute sampleState "nope" = none ∧
    getRequest sampleState "nope" "q1" = none ∧
    getRequest sampleState "r1" "missing" = none := by
  have h1 := getRoute_getRequest_absent sampleState "nope" "q1"
  have h2 := getRoute_getRequest_absent sampleState "r1" "missing"
  refine ⟨h1.1 (by decide), h1.2.1 (h1.1 (by decide)), ?_⟩
  exact h2.2.2 sampleRoute (by decide) (by decide)

/-- C2: dispatching an event whose name is none of the three handled
lifecycle names finds `undefined` in the table; invoking it throws
inside the `Bluebird.try` chain, so the dispatch delivers exactly one
call to `failCurrentTest` (carrying the `TypeError`), changes no state
(registry and every ledger untouched), and emits nothing. -/
theorem unknown_event_fails_test (onReq onResp onComp : HandlerFn)
    (s : DriverState) (eventName : String) (frame : NetFrame)
    (h1 : eventName ≠ "http:request:received")
    (h2 : eventName ≠ "http:response:received")
    (h3 : eventName ≠ "http:request:complete") :
    netEventListener (netEventHandlers onReq onResp onComp) s eventName frame =
      .ok ⟨s, [], [handlerNotAFunction],
        [{ handlerNotAFunction with fromSpec := true }], []⟩ := by
  simp [netEventListener, netEventThunk, netEventHandlers, bluebirdTry,
    failCurrentTest, h1, h2, h3]

/-- Witness for C2: the unknown name `"bogus"` against a fully populated
table and a concrete state. -/
theorem unknown_event_fails_test_spot :
    netEventListener (netEventHandlers idleHandler idleHandler idleHandler)
      sampleState "bogus" ⟨"r1", "q1", "p"⟩ =
      .ok ⟨sampleState, [], [handlerNotAFunction],
        [{ handlerNotAFunction with fromSpec := true }], []⟩ :=
  unknown_event_fails_test idleHandler idleHandler idleHandler sampleState
    "bogus" ⟨"r1", "q1", "p"⟩ (by decide) (by decide) (by decide)

/-- C3: whenever the resolved handler fails — by throwing synchronously
or by returning a promise that rejects — the dispatch delivers that very
error to `failCurrentTest` and nothing else: the listener still returns
normally, the only failure record is the single `failCurrentTest` call,
and no synchronous `cy.fail` happens. -/
theorem handler_failures_funnel (onReq onResp onComp : HandlerFn)
    (s s' : DriverState) (eventName : String) (frame : NetFrame)
    (handler : HandlerFn) (em : List BackendCall) (e : JsError)
    (hlook : netEventHandlers onReq onResp onComp eventName = some handler)
    (hrun : handler s frame = .syncThrow s' em e ∨
      handler s frame = .promise s' em (some e)) :
    netEventListener (netEventHandlers onReq onResp onComp) s eventName frame =
      .ok ⟨s', em, [e], [{ e with fromSpec := true }], []⟩ := by
  rcases hrun with hrun | hrun <;>
    simp [netEventListener, netEventThunk, hlook, hrun, bluebirdTry,
      failCurrentTest]

/-- Witness for C3: a handler that throws `"boom"` synchronously,
installed for `http:request:received`. -/
theorem handler_failures_funnel_spot :
    netEventListener (netEventHandlers throwingHandler idleHandler idleHandler)
      sampleState "http:request:received" ⟨"r1", "q1", "p"⟩ =
      .ok ⟨sampleState, [], [⟨"boom", false⟩], [⟨"boom", true⟩], []⟩ :=
  handler_failures_funnel throwingHandler idleHandler idleHandler
    sampleState sampleState "http:request:received" ⟨"r1", "q1", "p"⟩
    throwingHandler [] ⟨"boom", false⟩ (by simp [netEventHandlers])
    (Or.inl rfl)

/-- C4: after the `test:before:run` reset rebinds `state('routes')` to a
fresh empty object, every `getRoute` lookup and every `getRequest`
lookup returns `undefined`, however many routes and requests the prior
state held. -/
theorem reset_clears_lookups (s : DriverState)
    (routeHandlerId requestId : String) :
    getRoute (resetForTest s) routeHandlerId = none ∧
    getRequest (resetForTest s) routeHandlerId requestId = none := by
  constructor <;> simp [getRoute, getRequest, resetForTest, jsGet]

/-- C5: `getRequest` is route lookup followed by ledger lookup — absent
route gives absent request, present route gives its ledger entry; being
an `Option`-valued composition, it never fails. -/
theorem getRequest_is_composition (s : DriverState)
    (routeHandlerId requestId : String) :
    getRequest s routeHandlerId requestId =
      (getRoute s routeHandlerId).bind
        (fun route => jsGet route.requests requestId) := by
  unfold getRequest
  cases getRoute s routeHandlerId <;> rfl

/-- C6: `failCurrentTest` marks the error spec-originated
(`err.fromSpec = true`) while leaving its message intact, and the
deferred failing action is scheduled with the already-tagged error
object, so the tag is in place before that action can run. -/
theorem fail_tags_error_first (err : JsError) :
    (failCurrentTest err).tagged.fromSpec = true ∧
    (failCurrentTest err).tagged.message = err.message ∧
    (failCurrentTest err).deferredFails = [(failCurrentTest err).tagged] := by
  simp [failCurrentTest]

/-- C7: `failCurrentTest` never invokes `Cypress.cy.fail` synchronously
within its own call — it returns with no synchronous failure and the
failing action still pending on the deferred queue. -/
theorem fail_is_deferred (err : JsError) :
    (failCurrentTest err).syncFails = [] ∧
    (failCurrentTest err).deferredFails ≠ [] := by
  simp [failCurrentTest]

/-- C8: `emitNetEvent` sends exactly one outbound message, the `'net'`
envelope carrying the `(eventName, frame)` pair unmodified, and returns
the round-trip promise produced by `Cypress.backend` for that very
message. -/
theorem emit_single_envelope (eventName : String) (frame : NetFrame) :
    (emitNetEvent eventName frame).1 = [⟨"net", eventName, frame⟩] ∧
    (emitNetEvent eventName frame).2 =
      (cypressBackend "net" eventName frame).2 :=
  ⟨rfl, rfl⟩

/-- C9: the reset replaces the registry object instead of mutating the
`Route` objects it referenced: any route reference obtained before the
reset still dereferences to the identical `Route` value (same fields,
same ledger) afterwards, while every post-reset lookup through the
registry returns `undefined`. -/
theorem reset_replaces_registry (s : DriverState) (a : Addr) (route : Route)
    (h : s.deref a = some route) (routeHandlerId requestId : String) :
    (resetForTest s).deref a = some route ∧
    getRoute (resetForTest s) routeHandlerId = none ∧
    getRequest (resetForTest s) routeHandlerId requestId = none := by
  refine ⟨h, ?_, ?_⟩ <;> simp [getRoute, getRequest, resetForTest, jsGet]

/-- Witness for C9: the reference to `sampleRoute` held at address 0
survives the reset untouched even though its own id no longer
resolves. -/
theorem reset_replaces_registry_spot :
    (resetForTest sampleState).deref 0 = some sampleRoute ∧
    getRoute (resetForTest sampleState) "r1" = none ∧
    getRequest (resetForTest sampleState) "r1" "q1" = none :=
  reset_replaces_registry sampleState 0 sampleRoute (by decide) "r1" "q1"

/-- C10: the installed `net:event` listener always returns normally to
the emitter — for every table, state, event name and frame, the outcome
is `Except.ok`, because table lookup and handler invocation both run
inside the `Bluebird.try` chain terminated by `catch(failCurrentTest)`. -/
theorem listener_returns_normally (table : String → Option HandlerFn)
    (s : DriverState) (eventName : String) (frame : NetFrame) :
    ∃ o, netEventListener table s eventName frame = .ok o := by
  unfold netEventListener
  rcases bluebirdTry (netEventThunk table s eventName frame) with ⟨s', em, rej⟩
  cases rej <;> exact ⟨_, rfl⟩

end NetStubbing
